import Mathlib

/-!
Shallow embedding of the funnel-analytics core of the `cisd` repository
(`tpsq` app): the data model (`tpsq/models.py`), the analytics calculators
(`tpsq/utils.py`), the ingestion and submission endpoints
(`tpsq/views/early_signup.py`) and the daily-aggregation management command
(`tpsq/management/commands/compute_daily_stats.py`).

Modelling conventions:
- Dates are naturals (a calendar date is the count of days since an epoch);
  `DateTimeField` values are kept only at date granularity, which is the
  granularity every modelled query uses (`__date` filters).
- Python `float` percentages are modelled as exact rationals; `round(x, n)`
  is modelled as round-half-to-even (Python 3 banker's rounding) on `ℚ`.
- Django querysets over a table are lists of records; `filter(...).count()`
  is `List.countP`, `values(k).annotate(Count)` grouping is a fold over the
  deduplicated key list, `.first()` on an unordered `filter` is `List.find?`.
- The short-TTL result cache in `get_conversion_funnel` is omitted: it only
  serves stale-but-identical values and has no effect on any computed result.
- A Django `transaction.atomic` block is modelled by an explicit list of
  writes plus a fault position: a fault inside the block rolls every write
  of the block back (the enclosing `except` then reports a server error).
-/

namespace Tpsq

/-- Round-half-to-even on rationals, the rounding used by Python 3 `round`. -/
def pyRoundInt (q : ℚ) : ℤ :=
  let f : ℤ := ⌊q⌋
  let r : ℚ := q - f
  if r < 1/2 then f
  else if 1/2 < r then f + 1
  else if Even f then f else f + 1

/-- Python `round(q, 2)`. -/
def round2 (q : ℚ) : ℚ := pyRoundInt (q * 100) / 100

/-- Python `round(q, 1)`. -/
def round1 (q : ℚ) : ℚ := pyRoundInt (q * 10) / 10

/-- One `UserSession` row (`tpsq/models.py`).  Only the fields the verified
claims read are kept; `first_seen` is kept at date granularity. -/
structure UserSession where
  session_id : String
  first_seen_date : Nat
  utm_source : String
  page_views : Nat
  time_on_site : Nat
  is_bounce : Bool
deriving DecidableEq

/-- One `FunnelEvent` row (`tpsq/models.py`).  `metadata` is a JSON object
whose values the modelled code reads as integers. -/
structure FunnelEvent where
  session_id : String
  event_type : String
  date : Nat
  page_url : String
  page_title : String
  element_id : String
  element_text : String
  metadata : List (String × Nat)
  time_since_page_load : Option Nat
deriving DecidableEq

/-- The closed event-type enum `FunnelEvent.EVENT_TYPES` (`tpsq/models.py`). -/
def EVENT_TYPES : List (String × String) :=
  [(("ad_impression"), ("Ad Impression")),
   (("ad_click"), ("Ad Click")),
   (("page_view"), ("Page View")),
   (("survey_start"), ("Survey Started")),
   (("survey_complete"), ("Survey Completed")),
   (("form_focus"), ("Form Field Focused")),
   (("form_start"), ("Form Started")),
   (("form_error"), ("Form Validation Error")),
   (("signup_attempt"), ("Signup Attempted")),
   (("signup_success"), ("Signup Successful")),
   (("page_exit"), ("Page Exit"))]

/-- One `SurveyResponse` row (`tpsq/models.py`), at most one per session. -/
structure SurveyResponse where
  session_id : String
  preference : String
  created_date : Nat
  time_to_select : Option Nat
  changed_mind_count : Nat
deriving DecidableEq

/-- One `EarlyAccessSignup` row (`tpsq/models.py`); `session_id` is the
nullable back-reference to the originating session. -/
structure EarlyAccessSignup where
  session_id : Option String
  name : String
  email : String
  created_date : Nat
  is_verified : Bool
deriving DecidableEq

/-- One `DailyStats` row (`tpsq/models.py`).  The derived-rate fields are
nullable floats (`null=True`), hence `Option ℚ`. -/
structure DailyStats where
  date : Nat
  ad_impressions : Nat
  ad_clicks : Nat
  page_views : Nat
  unique_visitors : Nat
  surveys_started : Nat
  surveys_completed : Nat
  signups : Nat
  verified_signups : Nat
  prefer_nothing : Nat
  prefer_notification : Nat
  prefer_updates : Nat
  click_through_rate : Option ℚ
  page_conversion_rate : Option ℚ
  overall_conversion_rate : Option ℚ
  survey_completion_rate : Option ℚ
  avg_time_on_site : Option ℚ
  bounce_rate : Option ℚ
deriving DecidableEq

/-- The persistent state: one list per table. -/
structure DB where
  sessions : List UserSession
  events : List FunnelEvent
  surveys : List SurveyResponse
  signups : List EarlyAccessSignup
  daily_stats : List DailyStats
deriving DecidableEq

/-- The empty database. -/
def DB.empty : DB := ⟨[], [], [], [], []⟩

/-- Whether a session has a linked signup (`signup__isnull=False`, the
derived `converted` property). -/
def DB.hasSignup (db : DB) (sid : String) : Bool :=
  db.signups.any (fun g => g.session_id == some sid)

/-- Sessions whose `first_seen` date falls in the inclusive range
(`first_seen__date__range=[start_date, end_date]`). -/
def DB.sessionsInRange (db : DB) (s e : Nat) : List UserSession :=
  db.sessions.filter (fun x => s ≤ x.first_seen_date && x.first_seen_date ≤ e)

/-- Count of events of one type in the inclusive date range. -/
def DB.eventCountInRange (db : DB) (s e : Nat) (ty : String) : Nat :=
  db.events.countP (fun ev => (s ≤ ev.date && ev.date ≤ e) && ev.event_type == ty)

/-- The consecutive dates of the inclusive range `[s, e]` (empty when `e < s`),
in chronological order; the date iteration every range query performs. -/
def dateRange (s e : Nat) : List Nat := (List.range (e + 1 - s)).map (s + ·)

/-- Count of sessions whose `first_seen` date is exactly `d`. -/
def DB.sessionCountOn (db : DB) (d : Nat) : Nat :=
  db.sessions.countP (fun x => x.first_seen_date == d)

/-- Count of signups created on date `d`. -/
def DB.signupCountOn (db : DB) (d : Nat) : Nat :=
  db.signups.countP (fun g => g.created_date == d)

/-- Result shape of `AnalyticsCalculator.get_conversion_funnel`
(`tpsq/utils.py`, lines 31-73).  The 5-minute cache is omitted (see header). -/
structure Funnel where
  total_sessions : Nat
  page_views : Nat
  surveys_started : Nat
  surveys_completed : Nat
  forms_started : Nat
  signup_attempts : Nat
  successful_signups : Nat
  conversions : Nat
deriving DecidableEq

/-- Embedding of `AnalyticsCalculator.get_conversion_funnel`. -/
def get_conversion_funnel (db : DB) (s e : Nat) : Funnel :=
  { total_sessions := (db.sessionsInRange s e).length
    page_views := db.eventCountInRange s e ("page_view")
    surveys_started := db.eventCountInRange s e ("survey_start")
    surveys_completed := db.eventCountInRange s e ("survey_complete")
    forms_started := db.eventCountInRange s e ("form_start")
    signup_attempts := db.eventCountInRange s e ("signup_attempt")
    successful_signups := db.eventCountInRange s e ("signup_success")
    conversions := (db.sessionsInRange s e).countP (fun x => db.hasSignup x.session_id) }

/-- The conditionally-built `rates` dict of
`AnalyticsCalculator.get_conversion_rates` (`tpsq/utils.py`, lines 75-107),
before the final rounding comprehension. -/
def ratesRaw (db : DB) (s e : Nat) : List (String × ℚ) :=
  let f := get_conversion_funnel db s e
  (if 0 < f.page_views then
    [(("page_to_survey"), ((f.surveys_started : ℚ) / f.page_views) * 100)] else [])
  ++ (if 0 < f.surveys_started then
    [(("survey_completion"), ((f.surveys_completed : ℚ) / f.surveys_started) * 100)] else [])
  ++ (if 0 < f.surveys_completed then
    [(("survey_to_form"), ((f.forms_started : ℚ) / f.surveys_completed) * 100)] else [])
  ++ (if 0 < f.signup_attempts then
    [(("signup_success"), ((f.successful_signups : ℚ) / f.signup_attempts) * 100)] else [])
  ++ (if 0 < f.page_views then
    [(("overall"), ((f.conversions : ℚ) / f.page_views) * 100)] else [])

/-- Embedding of `AnalyticsCalculator.get_conversion_rates`: the dict above
with every value rounded to 2 decimals (`{k: round(v, 2) for k, v in ...}`). -/
def get_conversion_rates (db : DB) (s e : Nat) : List (String × ℚ) :=
  (ratesRaw db s e).map (fun p => (p.1, round2 p.2))

/-- One element of the `_get_daily_trends` result (`tpsq/utils.py`,
lines 391-432). -/
structure TrendPoint where
  date : Nat
  sessions : Nat
  signups : Nat
  conversion_rate : ℚ
deriving DecidableEq

/-- Embedding of `AnalyticsCalculator._get_daily_trends`: per date, prefer the
`DailyStats` row; fall back to on-the-fly counting when absent. -/
def get_daily_trends (db : DB) (s e : Nat) : List TrendPoint :=
  (dateRange s e).map (fun d =>
    match db.daily_stats.find? (fun r => r.date == d) with
    | some st =>
        { date := d, sessions := st.unique_visitors, signups := st.signups
          conversion_rate := st.page_conversion_rate.getD 0 }
    | none =>
        let day_sessions := db.sessionCountOn d
        let day_signups := db.signupCountOn d
        { date := d, sessions := day_sessions, signups := day_signups
          conversion_rate :=
            if 0 < day_sessions then
              round2 (((day_signups : ℚ) / day_sessions) * 100) else 0 })

/-- One element of the `attribution_data` list built by
`AnalyticsCalculator.get_traffic_attribution` (`tpsq/utils.py`, lines 330-380). -/
structure SourceEntry where
  source : String
  sessions : Nat
  conversions : Nat
  conversion_rate : ℚ
  avg_time_minutes : ℚ
  bounce_rate : ℚ
deriving DecidableEq

/-- Result shape of `get_traffic_attribution`. -/
structure Attribution where
  sources : List SourceEntry
  total_sources : Nat
  top_converting_source : Option SourceEntry
deriving DecidableEq

/-- The distinct `utm_source` values among the range's sessions: the grouping
keys of `sessions.values("utm_source").annotate(...)`. -/
def sourceKeys (db : DB) (s e : Nat) : List String :=
  ((db.sessionsInRange s e).map (fun x => x.utm_source)).dedup

/-- The group of range sessions carrying one `utm_source` value. -/
def sourceGroup (db : DB) (s e : Nat) (u : String) : List UserSession :=
  (db.sessionsInRange s e).filter (fun x => x.utm_source == u)

/-- The entry `get_traffic_attribution` builds for one source group:
`Count("id")`, `Count("signup", filter=signup__isnull=False)`,
`Avg("time_on_site")` (None only on an empty group; `or 0` applied),
`Count("id", filter=is_bounce=True)`, then the rate formulas of the loop
body.  An absent source (the empty string) is reported as "Direct". -/
def mkSourceEntry (db : DB) (s e : Nat) (u : String) : SourceEntry :=
  let grp := sourceGroup db s e u
  let total := grp.length
  let conv := grp.countP (fun x => db.hasSignup x.session_id)
  let avg_time : Option ℚ :=
    if total = 0 then none else some (((grp.map (fun x => (x.time_on_site : ℚ))).sum) / total)
  let bounce_count := grp.countP (fun x => x.is_bounce)
  { source := if u = "" then ("Direct") else u
    sessions := total
    conversions := conv
    conversion_rate := if 0 < total then round2 (((conv : ℚ) / total) * 100) else 0
    avg_time_minutes := round1 ((avg_time.getD 0) / 60)
    bounce_rate := if 0 < total then round1 (((bounce_count : ℚ) / total) * 100) else 0 }

/-- Python `max(attribution_data, key=lambda x: x["conversion_rate"])` on a
nonempty list: keep the current element unless a later one is strictly
greater. -/
def maxByRate : List SourceEntry → Option SourceEntry
  | [] => none
  | x :: xs => some (xs.foldl (fun best y =>
      if best.conversion_rate < y.conversion_rate then y else best) x)

/-- Embedding of `AnalyticsCalculator.get_traffic_attribution`.  The
`order_by("-total_sessions")` presentation order is modelled by sorting the
entries by descending session count (`mergeSort` is stable, as is the
database sort on equal keys). -/
def get_traffic_attribution (db : DB) (s e : Nat) : Attribution :=
  let attribution_data :=
    ((sourceKeys db s e).map (mkSourceEntry db s e)).mergeSort
      (fun a b => b.sessions ≤ a.sessions)
  { sources := attribution_data
    total_sources := attribution_data.length
    top_converting_source := maxByRate attribution_data }

/-- Embedding of `DailyStats.calculate_rates` (`tpsq/models.py`,
lines 449-482): each derived rate is (re)computed only under the source's
guard; a field whose guard fails keeps its stored value.  The bounce-rate
branch queries the session table for the row's date. -/
def calculate_rates (db : DB) (st : DailyStats) : DailyStats :=
  let ctr := some (round2 (((st.ad_clicks : ℚ) / st.ad_impressions) * 100))
  let ocr := some (round2 (((st.signups : ℚ) / st.ad_impressions) * 100))
  let pcr := some (round2 (((st.signups : ℚ) / st.page_views) * 100))
  let scr := some (round2 (((st.surveys_completed : ℚ) / st.surveys_started) * 100))
  let st1 :=
    if 0 < st.ad_impressions then
      let a := { st with click_through_rate := ctr }
      if 0 < st.signups then { a with overall_conversion_rate := ocr } else a
    else st
  let st2 :=
    if 0 < st.page_views ∧ 0 < st.signups then
      { st1 with page_conversion_rate := pcr }
    else st1
  let st3 :=
    if 0 < st.surveys_started ∧ 0 < st.surveys_completed then
      { st2 with survey_completion_rate := scr }
    else st2
  if 0 < st.unique_visitors then
    let bounce_sessions :=
      db.sessions.countP (fun x => x.first_seen_date == st.date && x.is_bounce)
    let br := some (round2 (((bounce_sessions : ℚ) / st.unique_visitors) * 100))
    { st3 with bounce_rate := br }
  else st3

/-- Count of events of one type on one date. -/
def DB.eventCountOn (db : DB) (d : Nat) (ty : String) : Nat :=
  db.events.countP (fun ev => ev.date == d && ev.event_type == ty)

/-- Count of survey responses created on date `d` carrying one preference. -/
def DB.preferenceCountOn (db : DB) (d : Nat) (p : String) : Nat :=
  db.surveys.countP (fun v => v.created_date == d && v.preference == p)

/-- Embedding of `Command.calculate_daily_metrics`
(`tpsq/management/commands/compute_daily_stats.py`, lines 152-209): the
`defaults` dict of raw counts for one date.  Rate fields are not part of the
dict; they are `none` here and are merged by the upsert below exactly as
`update_or_create(date=..., defaults=stats)` leaves unlisted columns alone. -/
def calculate_daily_metrics (db : DB) (d : Nat) : DailyStats :=
  let day_sessions := db.sessions.filter (fun x => x.first_seen_date == d)
  let avg_time : Option ℚ :=
    if day_sessions.length = 0 then none
    else some (((day_sessions.map (fun x => (x.time_on_site : ℚ))).sum) / day_sessions.length)
  { date := d
    ad_impressions := db.eventCountOn d ("ad_impression")
    ad_clicks := db.eventCountOn d ("ad_click")
    page_views := db.eventCountOn d ("page_view")
    unique_visitors := db.sessionCountOn d
    surveys_started := db.eventCountOn d ("survey_start")
    surveys_completed := db.eventCountOn d ("survey_complete")
    signups := db.signupCountOn d
    verified_signups := db.signups.countP (fun g => g.created_date == d && g.is_verified)
    prefer_nothing := db.preferenceCountOn d ("nothing")
    prefer_notification := db.preferenceCountOn d ("notification")
    prefer_updates := db.preferenceCountOn d ("updates")
    click_through_rate := none
    page_conversion_rate := none
    overall_conversion_rate := none
    survey_completion_rate := none
    avg_time_on_site := some (round1 ((avg_time.getD 0) / 60))
    bounce_rate := none }

/-- Whether a `DailyStats` row for date `d` exists. -/
def DB.statsRowExists (db : DB) (d : Nat) : Bool :=
  db.daily_stats.any (fun r => r.date == d)

/-- Copy the `defaults` columns of `calculate_daily_metrics` onto an existing
row, leaving the rate columns (absent from the dict) untouched. -/
def mergeDefaults (old m : DailyStats) : DailyStats :=
  { old with
    ad_impressions := m.ad_impressions, ad_clicks := m.ad_clicks
    page_views := m.page_views, unique_visitors := m.unique_visitors
    surveys_started := m.surveys_started, surveys_completed := m.surveys_completed
    signups := m.signups, verified_signups := m.verified_signups
    prefer_nothing := m.prefer_nothing, prefer_notification := m.prefer_notification
    prefer_updates := m.prefer_updates, avg_time_on_site := m.avg_time_on_site }

/-- Embedding of `DailyStats.objects.update_or_create(date=d, defaults=stats)`. -/
def DB.upsertStats (db : DB) (d : Nat) (m : DailyStats) : DB :=
  if db.statsRowExists d then
    { db with daily_stats :=
        db.daily_stats.map (fun r => if r.date == d then mergeDefaults r m else r) }
  else
    { db with daily_stats := db.daily_stats ++ [m] }

/-- Replace the row for date `d` by the result of `f` (models saving the
rates computed by `calculate_rates` on that row). -/
def DB.mapStatsRow (db : DB) (d : Nat) (f : DailyStats → DailyStats) : DB :=
  { db with daily_stats := db.daily_stats.map (fun r => if r.date == d then f r else r) }

/-- Embedding of `Command.compute_stats_for_date`
(`tpsq/management/commands/compute_daily_stats.py`, lines 107-150).
`faults d = true` models an exception raised inside the `try` while
processing date `d`: the atomic transaction is rolled back, the `except`
branch logs and returns `False`, and the database is unchanged. -/
def compute_stats_for_date (faults : Nat → Bool) (db : DB) (d : Nat)
    (force : Bool) : Bool × DB :=
  if !force && db.statsRowExists d then (false, db)
  else if faults d then (false, db)
  else
    let stats := calculate_daily_metrics db d
    let db1 := db.upsertStats d stats
    let db2 := db1.mapStatsRow d (fun r => calculate_rates db1 r)
    (true, db2)

/-- The per-date loop of `Command.backfill_all_stats`: accumulate the counts
of computed and skipped days in order. -/
def backfillLoop (faults : Nat → Bool) (force : Bool) :
    List Nat → DB → Nat × Nat × DB
  | [], db => (0, 0, db)
  | d :: ds, db =>
    let r := compute_stats_for_date faults db d force
    let rest := backfillLoop faults force ds r.2
    if r.1 then (rest.1 + 1, rest.2.1, rest.2.2)
    else (rest.1, rest.2.1 + 1, rest.2.2)

/-- Embedding of `Command.backfill_all_stats`
(`tpsq/management/commands/compute_daily_stats.py`, lines 70-105): from the
earliest session's date through yesterday (`today - 1`); returns `none` (and
does nothing) when no session exists, otherwise the reported
`(computed, skipped)` counts. -/
def backfill_all_stats (faults : Nat → Bool) (force : Bool) (db : DB)
    (today : Nat) : Option (Nat × Nat) × DB :=
  match (db.sessions.map (fun x => x.first_seen_date)).min? with
  | none => (none, db)
  | some start_date =>
    let r := backfillLoop faults force (dateRange start_date (today - 1)) db
    (some (r.1, r.2.1), r.2.2)

/-- Python `str.lower()` restricted to the character-wise case mapping. -/
def strLower (s : String) : String := ⟨s.data.map Char.toLower⟩

/-- Python `str.strip()`: drop leading and trailing whitespace. -/
def strStrip (s : String) : String :=
  ⟨((s.data.dropWhile Char.isWhitespace).reverse.dropWhile Char.isWhitespace).reverse⟩

/-- Python truthiness of an optional string (`if not session_id`): absent or
empty is falsy. -/
def pyTruthy : Option String → Bool
  | none => false
  | some s => s ≠ ""

/-- The request body of the event-ingestion endpoint (`track_event`).
`metadata := none` models a payload whose `metadata` is not a JSON object
(the `isinstance(metadata, dict)` guard); an absent `metadata` key defaults
to the empty object. -/
structure TrackRequest where
  session_id : Option String
  event_type : Option String
  page_url : String
  page_title : String
  element_id : String
  element_text : String
  time_since_page_load : Option Nat
  metadata : Option (List (String × Nat))
  utm_source : String
deriving DecidableEq

/-- Responses of `track_event`. -/
inductive TrackResult where
  | badRequest
  | success
deriving DecidableEq

/-- Embedding of `get_or_create_session` (`tpsq/views/early_signup.py`,
lines 103-150) at the granularity the claims need: an existing session is
returned unchanged (its `last_activity` touch is not modelled), otherwise a
fresh row with zero counters and `is_bounce = true` is created.  Session
identifiers are taken to be well-formed UUID strings; the silent
regeneration of malformed ones is a transient-fault path outside every
claim. -/
def getOrCreateSession (db : DB) (sid : String) (utm_source : String)
    (today : Nat) : DB :=
  if db.sessions.any (fun x => x.session_id == sid) then db
  else
    { db with sessions := db.sessions ++
        [{ session_id := sid, first_seen_date := today, utm_source := utm_source
           page_views := 0, time_on_site := 0, is_bounce := true }] }

/-- The type-specific session side effects of `track_event`
(`tpsq/views/early_signup.py`, lines 188-206): page view increments the
counter and clears the bounce flag, survey start clears the bounce flag, and
page exit folds `metadata["time_on_page"]` (milliseconds) into the
cumulative time-on-site by taking the maximum with the prior value; a zero
or absent value, or a non-dict metadata, is a no-op. -/
def applyEventSideEffect (event_type : String)
    (metadata : Option (List (String × Nat))) (s : UserSession) : UserSession :=
  if event_type = "page_view" then
    { s with page_views := s.page_views + 1, is_bounce := false }
  else if event_type = "survey_start" then
    { s with is_bounce := false }
  else if event_type = "page_exit" then
    match metadata with
    | some md =>
      let time_on_page := (md.lookup ("time_on_page")).getD 0
      if time_on_page ≠ 0 then
        { s with time_on_site := max s.time_on_site (time_on_page / 1000) }
      else s
    | none => s
  else s

/-- Embedding of `track_event` (`tpsq/views/early_signup.py`, lines 153-215):
reject only a missing (or empty) `session_id` / `event_type`; otherwise
resolve or create the session, append the event row unconditionally — the
view performs no membership check of `event_type` against
`FunnelEvent.EVENT_TYPES` — apply the side effects and save the session. -/
def track_event (db : DB) (req : TrackRequest) (today : Nat) : TrackResult × DB :=
  if !pyTruthy req.session_id || !pyTruthy req.event_type then (.badRequest, db)
  else
    let sid := req.session_id.getD ("")
    let ety := req.event_type.getD ("")
    let db1 := getOrCreateSession db sid req.utm_source today
    let ev : FunnelEvent :=
      { session_id := sid, event_type := ety, date := today
        page_url := req.page_url, page_title := req.page_title
        element_id := req.element_id, element_text := req.element_text
        metadata := req.metadata.getD [], time_since_page_load := req.time_since_page_load }
    let db2 := { db1 with events := db1.events ++ [ev] }
    let db3 := { db2 with sessions := db2.sessions.map (fun s =>
        if s.session_id == sid then applyEventSideEffect ety req.metadata s else s) }
    (.success, db3)

/-- The request body of the conversion-submission endpoint
(`submit_early_access`). -/
structure SubmitRequest where
  session_id : String
  email : String
  name : String
  preference : Option String
  time_to_select : Option Nat
  changes_made : Nat
  utm_source : String
deriving DecidableEq

/-- Responses of `submit_early_access`, carrying the context each branch
surfaces (the registration date stands for the formatted `created_at`). -/
inductive SubmitOutcome where
  | validationError
  | duplicateSession (existing_email existing_name : String) (registration_date : Nat)
  | duplicateEmail (registration_date : Nat)
  | serverError
  | success (email name : String)
deriving DecidableEq

/-- Upsert of the `SurveyResponse` for a session
(`SurveyResponse.objects.get_or_create` followed by an overwrite of the
existing row, `tpsq/views/early_signup.py`, lines 308-323): last write wins. -/
def upsertSurvey (sid : String) (p : String) (tts : Option Nat) (cmc : Nat)
    (today : Nat) (db : DB) : DB :=
  if db.surveys.any (fun v => v.session_id == sid) then
    { db with surveys := db.surveys.map (fun v =>
        if v.session_id == sid then
          { v with preference := p, time_to_select := tts, changed_mind_count := cmc }
        else v) }
  else
    { db with surveys := db.surveys ++
        [{ session_id := sid, preference := p, created_date := today
           time_to_select := tts, changed_mind_count := cmc }] }

/-- Creation of the `EarlyAccessSignup` row. -/
def createSignup (sid : String) (name email : String) (today : Nat) (db : DB) : DB :=
  { db with signups := db.signups ++
      [{ session_id := some sid, name := name, email := email
         created_date := today, is_verified := false }] }

/-- The `session.is_bounce = False; session.save()` write. -/
def clearBounce (sid : String) (db : DB) : DB :=
  { db with sessions := db.sessions.map (fun s =>
      if s.session_id == sid then { s with is_bounce := false } else s) }

/-- Run the writes of a `transaction.atomic` block.  `fault = some k` models
an exception raised after `k` of the writes have executed (`k` past the end
means no exception): Django rolls the whole block back, so a fault yields
`none` and the pre-block state is kept by the caller. -/
def runAtomic (db : DB) (writes : List (DB → DB)) (fault : Option Nat) : Option DB :=
  match fault with
  | some k => if k ≤ writes.length then none
              else some (writes.foldl (fun d w => w d) db)
  | none => some (writes.foldl (fun d w => w d) db)

/-- Embedding of `submit_early_access` (`tpsq/views/early_signup.py`,
lines 218-359): required-field check (Python truthiness of
`session_id`, lowered-and-stripped `email`, stripped `name`), session
resolution, the session-duplicate check, the case-insensitive
email-duplicate check (`email__iexact`), then the atomic block holding the
survey upsert (only when a preference was sent), the signup creation and the
bounce-flag clear. -/
def submit_early_access (db : DB) (req : SubmitRequest) (fault : Option Nat)
    (today : Nat) : SubmitOutcome × DB :=
  let email := strStrip (strLower req.email)
  let name := strStrip req.name
  if req.session_id = "" ∨ email = "" ∨ name = "" then (.validationError, db)
  else
    let db1 := getOrCreateSession db req.session_id req.utm_source today
    match db1.signups.find? (fun g => g.session_id == some req.session_id) with
    | some g => (.duplicateSession g.email g.name g.created_date, db1)
    | none =>
      match db1.signups.find? (fun g => strLower g.email == email) with
      | some g => (.duplicateEmail g.created_date, db1)
      | none =>
        let writes : List (DB → DB) :=
          (match req.preference with
           | some p => [upsertSurvey req.session_id p req.time_to_select req.changes_made today]
           | none => [])
          ++ [createSignup req.session_id name email today, clearBounce req.session_id]
        match runAtomic db1 writes fault with
        | none => (.serverError, db1)
        | some db2 => (.success email name, db2)

/-- Python `a or b` on an optional float (`avg_time or 0 / 60` in
`dashboard_stats`): `None` and `0.0` are falsy. -/
def pyOrQ (a : Option ℚ) (b : ℚ) : ℚ :=
  match a with
  | none => b
  | some x => if x = 0 then b else x

/-- The `avg_time_on_site` overview field of `dashboard_stats`
(`tpsq/views/early_signup.py`, lines 463-467): literally
`round(sessions.aggregate(avg_time=Avg("time_on_site"))["avg_time"] or 0 / 60, 1)`
— by Python precedence the `or` applies before the division's result is
added to anything, i.e. `round(avg or (0 / 60), 1)`, so no unit conversion
happens on a non-null average. -/
def dashboard_avg_time_on_site (db : DB) (s e : Nat) : ℚ :=
  round1 (pyOrQ
    (if (db.sessionsInRange s e).length = 0 then none
     else some ((((db.sessionsInRange s e).map (fun x => (x.time_on_site : ℚ))).sum)
       / (db.sessionsInRange s e).length))
    ((0 : ℚ) / 60))

/-- Whether the backfill loop will actually compute date `d`, judged against
the initial database: not already aggregated (unless forced) and not hit by
a fault. -/
def backfillSuccess (db : DB) (force : Bool) (faults : Nat → Bool) (d : Nat) : Bool :=
  (force || !(db.statsRowExists d)) && !(faults d)

/-- The earliest session's `first_seen` date (the backfill starting point);
defaults to 0 on an empty session table, where backfill does nothing. -/
def firstSessionDate (db : DB) : Nat :=
  ((db.sessions.map (fun x => x.first_seen_date)).min?).getD 0

/-- The preference stored for a session's survey response, if any. -/
def surveyPrefFor (db : DB) (sid : String) : Option String :=
  (db.surveys.find? (fun v => v.session_id == sid)).map (fun v => v.preference)

/-- A `DailyStats` row with one ad impression and no signups, every other
count zero and every stored rate `none`. -/
def statNoSignup : DailyStats :=
  { date := 0, ad_impressions := 1, ad_clicks := 0, page_views := 0
    unique_visitors := 0, surveys_started := 0, surveys_completed := 0
    signups := 0, verified_signups := 0, prefer_nothing := 0
    prefer_notification := 0, prefer_updates := 0
    click_through_rate := none, page_conversion_rate := none
    overall_conversion_rate := none, survey_completion_rate := none
    avg_time_on_site := none, bounce_rate := none }

/-- A database holding one session `s1` that already registered. -/
def dbOneSignup : DB :=
  { sessions := [{ session_id := ("s1"), first_seen_date := 10, utm_source := ""
                   page_views := 1, time_on_site := 0, is_bounce := false }]
    events := [], surveys := []
    signups := [{ session_id := some ("s1"), name := ("Prior User")
                  email := ("prior@example.com"), created_date := 10
                  is_verified := false }]
    daily_stats := [] }

/-- A second submission from session `s1` under a different email. -/
def reqOtherEmail : SubmitRequest :=
  { session_id := ("s1"), email := ("Other@Example.com"), name := ("Ada")
    preference := some ("updates"), time_to_select := some 5, changes_made := 0
    utm_source := "" }

/-- A fresh submission with a preference, for a database with no signups. -/
def reqFresh : SubmitRequest :=
  { session_id := ("s2"), email := ("New@Example.com"), name := ("Bea")
    preference := some ("updates"), time_to_select := none, changes_made := 1
    utm_source := "" }

/-- A database with one session on day 0 and no aggregates, for a
seven-day backfill run. -/
def dbBackfill : DB :=
  { sessions := [{ session_id := ("s1"), first_seen_date := 0, utm_source := ""
                   page_views := 1, time_on_site := 0, is_bounce := false }]
    events := [], surveys := [], signups := [], daily_stats := [] }

/-- A fault oracle that fails exactly on day 3. -/
def faultDay3 : Nat → Bool := fun d => d == 3

/-- A `DailyStats` row for day 0 consistent with `dbTrends`'s raw facts. -/
def statDay0 : DailyStats :=
  { date := 0, ad_impressions := 0, ad_clicks := 0, page_views := 2
    unique_visitors := 1, surveys_started := 0, surveys_completed := 0
    signups := 0, verified_signups := 0, prefer_nothing := 0
    prefer_notification := 0, prefer_updates := 0
    click_through_rate := none, page_conversion_rate := none
    overall_conversion_rate := none, survey_completion_rate := none
    avg_time_on_site := none, bounce_rate := none }

/-- A database with one session on day 0 and a matching aggregate row. -/
def dbTrends : DB :=
  { sessions := [{ session_id := ("s1"), first_seen_date := 0, utm_source := ""
                   page_views := 2, time_on_site := 30, is_bounce := false }]
    events := [], surveys := [], signups := [], daily_stats := [statDay0] }

/-- A database with one attributed session, for the attribution witness. -/
def dbAttr : DB :=
  { sessions := [{ session_id := ("s1"), first_seen_date := 0
                   utm_source := ("google"), page_views := 1
                   time_on_site := 60, is_bounce := false }]
    events := [], surveys := [], signups := [], daily_stats := [] }

/-- An ingestion request whose `event_type` is not in the closed enum. -/
def reqInvalidType : TrackRequest :=
  { session_id := some ("aaaaaaaa-bbbb-cccc-dddd-eeeeeeeeffff")
    event_type := some ("invalid_event")
    page_url := "", page_title := "", element_id := "", element_text := ""
    time_since_page_load := none, metadata := some [], utm_source := "" }

theorem round1_zero : round1 0 = 0 := by
  norm_num [round1, pyRoundInt]

/-- C10: for every dashboard-stats request whose range contains a session,
the returned overview `avg_time_on_site` is the mean of the range's
sessions' `time_on_site` values rounded to one decimal — expressed in
seconds, with no division by 60 applied to a non-null average (by operator
precedence, `avg or 0 / 60` is `avg or (0 / 60)`) — and it is `0.0` when the
range contains no session. -/
theorem dashboard_avg_time_is_seconds (db : DB) (s e : Nat) :
    (db.sessionsInRange s e ≠ [] →
      dashboard_avg_time_on_site db s e =
        round1 ((((db.sessionsInRange s e).map (fun x => (x.time_on_site : ℚ))).sum)
          / (db.sessionsInRange s e).length))
    ∧ (db.sessionsInRange s e = [] → dashboard_avg_time_on_site db s e = 0) := by
  constructor
  · intro h
    have hlen : (db.sessionsInRange s e).length ≠ 0 := by
      simpa [List.length_eq_zero] using h
    unfold dashboard_avg_time_on_site pyOrQ
    rw [if_neg hlen]
    by_cases hz :
        (((db.sessionsInRange s e).map (fun x => (x.time_on_site : ℚ))).sum)
          / (db.sessionsInRange s e).length = 0
    · simp only [hz, if_pos rfl]
      norm_num
    · simp only [if_neg hz]
  · intro h
    unfold dashboard_avg_time_on_site pyOrQ
    rw [if_pos (by simp [h])]
    simpa using round1_zero

/-- C10 witness: a session with 90 seconds on site in range. -/
theorem dashboard_avg_time_is_seconds_witness :
    (DB.empty.sessionsInRange 0 0 ≠ [] →
      dashboard_avg_time_on_site DB.empty 0 0 =
        round1 ((((DB.empty.sessionsInRange 0 0).map (fun x => (x.time_on_site : ℚ))).sum)
          / (DB.empty.sessionsInRange 0 0).length))
    ∧ (DB.empty.sessionsInRange 0 0 = [] → dashboard_avg_time_on_site DB.empty 0 0 = 0) :=
  dashboard_avg_time_is_seconds DB.empty 0 0

/-- C9: for a tracked `page_exit` event whose metadata map carries a
`time_on_page` value, the session's cumulative `time_on_site` becomes the
maximum of its prior value and the new value converted from milliseconds to
seconds; hence the fold never decreases `time_on_site` and folding the same
exit signal twice equals folding it once. -/
theorem page_exit_time_fold (s : UserSession) (md : List (String × Nat)) (t : Nat)
    (h : md.lookup ("time_on_page") = some t) :
    (applyEventSideEffect ("page_exit") (some md) s).time_on_site
        = max s.time_on_site (t / 1000)
    ∧ s.time_on_site ≤ (applyEventSideEffect ("page_exit") (some md) s).time_on_site
    ∧ applyEventSideEffect ("page_exit") (some md)
        (applyEventSideEffect ("page_exit") (some md) s)
      = applyEventSideEffect ("page_exit") (some md) s := by
  have key : ∀ s₀ : UserSession, applyEventSideEffect ("page_exit") (some md) s₀
      = { s₀ with time_on_site := max s₀.time_on_site (t / 1000) } := by
    intro s₀
    unfold applyEventSideEffect
    simp only [reduceIte, h, Option.getD_some]
    by_cases ht : t = 0
    · subst ht
      simp
    · simp [ht]
  refine ⟨by rw [key], by rw [key]; exact le_max_left _ _, ?_⟩
  rw [key, key]
  simp [Nat.max_assoc]

/-- C9 witness: a 30000 ms exit signal on a fresh session. -/
theorem page_exit_time_fold_witness :
    ([(("time_on_page"), 30000)].lookup ("time_on_page") = some 30000)
    ∧ ((applyEventSideEffect ("page_exit") (some [(("time_on_page"), 30000)])
          { session_id := ("x"), first_seen_date := 0, utm_source := ""
            page_views := 0, time_on_site := 0, is_bounce := true }).time_on_site
        = max 0 (30000 / 1000)
      ∧ 0 ≤ (applyEventSideEffect ("page_exit") (some [(("time_on_page"), 30000)])
          { session_id := ("x"), first_seen_date := 0, utm_source := ""
            page_views := 0, time_on_site := 0, is_bounce := true }).time_on_site
      ∧ applyEventSideEffect ("page_exit") (some [(("time_on_page"), 30000)])
          (applyEventSideEffect ("page_exit") (some [(("time_on_page"), 30000)])
            { session_id := ("x"), first_seen_date := 0, utm_source := ""
              page_views := 0, time_on_site := 0, is_bounce := true })
        = applyEventSideEffect ("page_exit") (some [(("time_on_page"), 30000)])
            { session_id := ("x"), first_seen_date := 0, utm_source := ""
              page_views := 0, time_on_site := 0, is_bounce := true }) :=
  ⟨by decide, page_exit_time_fold _ _ 30000 (by decide)⟩

/-- C5 counterexample: on a row with one ad impression and zero signups the
claim demands `overall_conversion_rate = round(0 / 1 * 100, 2)` after
`calculate_rates`, but the code leaves the stored `None` untouched because
its guard also requires `signups > 0`. -/
theorem calculate_rates_claim_false :
    0 < statNoSignup.ad_impressions
    ∧ (calculate_rates DB.empty statNoSignup).overall_conversion_rate
        ≠ some (round2 (((statNoSignup.signups : ℚ) / statNoSignup.ad_impressions) * 100)) := by
  constructor
  · decide
  · have hval : (calculate_rates DB.empty statNoSignup).overall_conversion_rate = none := rfl
    rw [hval]
    simp

/-- C5 (amended): every time `calculate_rates` runs on a saved row,
`click_through_rate` is recomputed from the raw counts whenever
`ad_impressions > 0`, but `overall_conversion_rate` only when additionally
`signups > 0`, `page_conversion_rate` only when `page_views > 0` and
`signups > 0`, and `survey_completion_rate` only when `surveys_started > 0`
and `surveys_completed > 0`; a rate whose guard fails keeps its previously
stored value. -/
theorem calculate_rates_guarded (db : DB) (st : DailyStats) :
    (calculate_rates db st).click_through_rate
      = (if 0 < st.ad_impressions
         then some (round2 (((st.ad_clicks : ℚ) / st.ad_impressions) * 100))
         else st.click_through_rate)
    ∧ (calculate_rates db st).overall_conversion_rate
      = (if 0 < st.ad_impressions ∧ 0 < st.signups
         then some (round2 (((st.signups : ℚ) / st.ad_impressions) * 100))
         else st.overall_conversion_rate)
    ∧ (calculate_rates db st).page_conversion_rate
      = (if 0 < st.page_views ∧ 0 < st.signups
         then some (round2 (((st.signups : ℚ) / st.page_views) * 100))
         else st.page_conversion_rate)
    ∧ (calculate_rates db st).survey_completion_rate
      = (if 0 < st.surveys_started ∧ 0 < st.surveys_completed
         then some (round2 (((st.surveys_completed : ℚ) / st.surveys_started) * 100))
         else st.survey_completion_rate) := by
  unfold calculate_rates
  by_cases h1 : 0 < st.ad_impressions <;>
    by_cases h2 : 0 < st.signups <;>
      by_cases h3 : 0 < st.page_views <;>
        by_cases h4 : 0 < st.surveys_started <;>
          by_cases h5 : 0 < st.surveys_completed <;>
            by_cases h6 : 0 < st.unique_visitors <;>
              simp [h1, h2, h3, h4, h5, h6]

/-- C2: `get_conversion_rates` is total (the embedding is a function, never
an exception) and its result dict holds a key exactly when that ratio's
denominator is positive, with the value the claimed ratio rounded to two
decimals; a zero denominator just omits the key.  The last conjunct pins the
key set, so no other key can appear. -/
theorem get_conversion_rates_guards (db : DB) (s e : Nat) :
    ((get_conversion_rates db s e).lookup ("page_to_survey")
      = (if 0 < (get_conversion_funnel db s e).page_views
         then some (round2 ((((get_conversion_funnel db s e).surveys_started : ℚ)
            / (get_conversion_funnel db s e).page_views) * 100))
         else none))
    ∧ ((get_conversion_rates db s e).lookup ("survey_completion")
      = (if 0 < (get_conversion_funnel db s e).surveys_started
         then some (round2 ((((get_conversion_funnel db s e).surveys_completed : ℚ)
            / (get_conversion_funnel db s e).surveys_started) * 100))
         else none))
    ∧ ((get_conversion_rates db s e).lookup ("survey_to_form")
      = (if 0 < (get_conversion_funnel db s e).surveys_completed
         then some (round2 ((((get_conversion_funnel db s e).forms_started : ℚ)
            / (get_conversion_funnel db s e).surveys_completed) * 100))
         else none))
    ∧ ((get_conversion_rates db s e).lookup ("signup_success")
      = (if 0 < (get_conversion_funnel db s e).signup_attempts
         then some (round2 ((((get_conversion_funnel db s e).successful_signups : ℚ)
            / (get_conversion_funnel db s e).signup_attempts) * 100))
         else none))
    ∧ ((get_conversion_rates db s e).lookup ("overall")
      = (if 0 < (get_conversion_funnel db s e).page_views
         then some (round2 ((((get_conversion_funnel db s e).conversions : ℚ)
            / (get_conversion_funnel db s e).page_views) * 100))
         else none))
    ∧ (∀ p ∈ get_conversion_rates db s e,
        p.1 ∈ [("page_to_survey"), ("survey_completion"), ("survey_to_form"),
               ("signup_success"), ("overall")]) := by
  unfold get_conversion_rates ratesRaw
  by_cases h1 : 0 < (get_conversion_funnel db s e).page_views <;>
    by_cases h2 : 0 < (get_conversion_funnel db s e).surveys_started <;>
      by_cases h3 : 0 < (get_conversion_funnel db s e).surveys_completed <;>
        by_cases h4 : 0 < (get_conversion_funnel db s e).signup_attempts <;>
          simp [h1, h2, h3, h4, List.lookup]

/-- C2 witness: the guards evaluated on the empty database over one date. -/
theorem get_conversion_rates_guards_witness :
    ((get_conversion_rates DB.empty 0 0).lookup ("page_to_survey")
      = (if 0 < (get_conversion_funnel DB.empty 0 0).page_views
         then some (round2 ((((get_conversion_funnel DB.empty 0 0).surveys_started : ℚ)
            / (get_conversion_funnel DB.empty 0 0).page_views) * 100))
         else none))
    ∧ ((get_conversion_rates DB.empty 0 0).lookup ("survey_completion")
      = (if 0 < (get_conversion_funnel DB.empty 0 0).surveys_started
         then some (round2 ((((get_conversion_funnel DB.empty 0 0).surveys_completed : ℚ)
            / (get_conversion_funnel DB.empty 0 0).surveys_started) * 100))
         else none))
    ∧ ((get_conversion_rates DB.empty 0 0).lookup ("survey_to_form")
      = (if 0 < (get_conversion_funnel DB.empty 0 0).surveys_completed
         then some (round2 ((((get_conversion_funnel DB.empty 0 0).forms_started : ℚ)
            / (get_conversion_funnel DB.empty 0 0).surveys_completed) * 100))
         else none))
    ∧ ((get_conversion_rates DB.empty 0 0).lookup ("signup_success")
      = (if 0 < (get_conversion_funnel DB.empty 0 0).signup_attempts
         then some (round2 ((((get_conversion_funnel DB.empty 0 0).successful_signups : ℚ)
            / (get_conversion_funnel DB.empty 0 0).signup_attempts) * 100))
         else none))
    ∧ ((get_conversion_rates DB.empty 0 0).lookup ("overall")
      = (if 0 < (get_conversion_funnel DB.empty 0 0).page_views
         then some (round2 ((((get_conversion_funnel DB.empty 0 0).conversions : ℚ)
            / (get_conversion_funnel DB.empty 0 0).page_views) * 100))
         else none))
    ∧ (∀ p ∈ get_conversion_rates DB.empty 0 0,
        p.1 ∈ [("page_to_survey"), ("survey_completion"), ("survey_to_form"),
               ("signup_success"), ("overall")]) :=
  get_conversion_rates_guards DB.empty 0 0

/-- C3: the event-ingestion endpoint does reject a missing `session_id` or
`event_type`, but — against the claim, the model's `choices`, the
`FunnelEventSerializer.validate_event_type` rule and the repository's own
serializer tests — it never checks membership in `EVENT_TYPES`: an
`event_type` outside the closed enum is accepted with `{success: true}` and
the bogus event row is stored. -/
theorem track_event_accepts_unknown_type :
    ((track_event DB.empty { reqInvalidType with session_id := none } 0).1
        = TrackResult.badRequest)
    ∧ ((track_event DB.empty { reqInvalidType with event_type := none } 0).1
        = TrackResult.badRequest)
    ∧ (("invalid_event") ∉ EVENT_TYPES.map Prod.fst)
    ∧ ((track_event DB.empty reqInvalidType 0).1 = TrackResult.success)
    ∧ ((track_event DB.empty reqInvalidType 0).2.events.map (fun ev => ev.event_type)
        = [("invalid_event")]) := by
  exact ⟨rfl, rfl, by decide, rfl, rfl⟩

theorem getOrCreateSession_signups_eq (db : DB) (sid u : String) (t : Nat) :
    (getOrCreateSession db sid u t).signups = db.signups := by
  unfold getOrCreateSession
  split <;> rfl

theorem getOrCreateSession_surveys_eq (db : DB) (sid u : String) (t : Nat) :
    (getOrCreateSession db sid u t).surveys = db.surveys := by
  unfold getOrCreateSession
  split <;> rfl

/-- C1: once the required fields pass, a submission whose session already
has a signup is rejected as a session duplicate, surfacing the prior
record's email and registration date, whatever the submitted email is — so
the session-level check wins whenever both duplicates apply — and only when
no session duplicate exists is a submission whose email matches an existing
record case-insensitively (`email__iexact` against the lowered, stripped
input) rejected as an email duplicate surfacing the prior registration
date. -/
theorem submit_duplicate_checks (db : DB) (req : SubmitRequest)
    (fault : Option Nat) (today : Nat)
    (hsid : req.session_id ≠ "")
    (hemail : strStrip (strLower req.email) ≠ "")
    (hname : strStrip req.name ≠ "") :
    (∀ g, db.signups.find? (fun g => g.session_id == some req.session_id) = some g →
        (submit_early_access db req fault today).1
          = SubmitOutcome.duplicateSession g.email g.name g.created_date)
    ∧ (db.signups.find? (fun g => g.session_id == some req.session_id) = none →
        ∀ g, db.signups.find?
            (fun g => strLower g.email == strStrip (strLower req.email)) = some g →
          (submit_early_access db req fault today).1
            = SubmitOutcome.duplicateEmail g.created_date) := by
  constructor
  · intro g hg
    unfold submit_early_access
    rw [if_neg (by simp [hsid, hemail, hname])]
    simp only [getOrCreateSession_signups_eq, hg]
  · intro hnone g hg
    unfold submit_early_access
    rw [if_neg (by simp [hsid, hemail, hname])]
    simp only [getOrCreateSession_signups_eq, hnone, hg]

/-- C1 witness: a prior signup from session `s1`; a second submission from
`s1` under a different email. -/
theorem submit_duplicate_checks_witness :
    (("s1" : String) ≠ "")
    ∧ strStrip (strLower ("Other@Example.com")) ≠ ""
    ∧ strStrip ("Ada") ≠ ""
    ∧ ((∀ g, (dbOneSignup.signups.find?
            (fun g => g.session_id == some (reqOtherEmail.session_id))) = some g →
          (submit_early_access dbOneSignup reqOtherEmail none 11).1
            = SubmitOutcome.duplicateSession g.email g.name g.created_date)
      ∧ (dbOneSignup.signups.find?
            (fun g => g.session_id == some (reqOtherEmail.session_id)) = none →
          ∀ g, dbOneSignup.signups.find?
              (fun g => strLower g.email
                == strStrip (strLower (reqOtherEmail.email))) = some g →
            (submit_early_access dbOneSignup reqOtherEmail none 11).1
              = SubmitOutcome.duplicateEmail g.created_date)) :=
  ⟨by decide, by decide, by decide,
    submit_duplicate_checks dbOneSignup reqOtherEmail none 11
      (by decide) (by decide) (by decide)⟩

theorem find_append_single {α : Type} (pred : α → Bool) (L : List α)
    (hL : L.any pred = false) (x : α) (hx : pred x = true) :
    (L ++ [x]).find? pred = some x := by
  induction L with
  | nil => simp [List.find?, hx]
  | cons a L ih =>
    simp only [List.any_cons, Bool.or_eq_false_iff] at hL
    simpa [List.find?, hL.1] using ih hL.2

theorem find_upd_pref (sid p : String) (tts : Option Nat) (cmc : Nat) :
    ∀ L : List SurveyResponse, L.any (fun v => v.session_id == sid) = true →
    ((L.map (fun v => if v.session_id == sid
        then { v with preference := p, time_to_select := tts, changed_mind_count := cmc }
        else v)).find? (fun v => v.session_id == sid)).map (fun v => v.preference)
      = some p := by
  intro L
  induction L with
  | nil => simp
  | cons v L ih =>
    intro hany
    by_cases hv : v.session_id == sid
    · simp [List.find?, hv]
    · simp only [List.any_cons, hv, Bool.false_or] at hany
      simpa [List.find?, hv] using ih hany

theorem upsertSurvey_pref (db : DB) (sid p : String) (tts : Option Nat)
    (cmc : Nat) (today : Nat) :
    surveyPrefFor (upsertSurvey sid p tts cmc today db) sid = some p := by
  unfold upsertSurvey surveyPrefFor
  by_cases h : db.surveys.any (fun v => v.session_id == sid)
  · rw [if_pos h]
    exact find_upd_pref sid p tts cmc db.surveys h
  · rw [if_neg h]
    have := find_append_single (fun v : SurveyResponse => v.session_id == sid)
      db.surveys (by simpa using h)
      { session_id := sid, preference := p, created_date := today
        time_to_select := tts, changed_mind_count := cmc } (by simp)
    simp only [this]
    rfl

/-- C4: on the success path of `submit_early_access`, whatever point of the
atomic block a fault hits, the post-state is all-or-nothing: either the
signup row exists and, when a preference was sent, the survey upsert is in
place (last write wins), or neither table changed at all — no reachable
post-state has the survey saved without the signup or the signup without
the survey upsert. -/
theorem submit_atomic_consistency (db : DB) (req : SubmitRequest)
    (fault : Option Nat) (today : Nat)
    (hsid : req.session_id ≠ "")
    (hemail : strStrip (strLower req.email) ≠ "")
    (hname : strStrip req.name ≠ "")
    (hnos : ∀ g ∈ db.signups, g.session_id ≠ some req.session_id)
    (hnoe : ∀ g ∈ db.signups, strLower g.email ≠ strStrip (strLower req.email)) :
    ((∃ g ∈ (submit_early_access db req fault today).2.signups,
        g.email = strStrip (strLower req.email))
      ∧ (∀ p, req.preference = some p →
          surveyPrefFor (submit_early_access db req fault today).2 req.session_id
            = some p))
    ∨ ((submit_early_access db req fault today).2.signups = db.signups
      ∧ (submit_early_access db req fault today).2.surveys = db.surveys) := by
  have hf1 : db.signups.find? (fun g => g.session_id == some req.session_id) = none := by
    rw [List.find?_eq_none]
    intro g hg
    simpa using hnos g hg
  have hf2 : db.signups.find?
      (fun g => strLower g.email == strStrip (strLower req.email)) = none := by
    rw [List.find?_eq_none]
    intro g hg
    simpa using hnoe g hg
  unfold submit_early_access
  rw [if_neg (by simp [hsid, hemail, hname])]
  simp only [getOrCreateSession_signups_eq, hf1, hf2]
  unfold runAtomic
  rcases fault with _ | k
  · left
    cases hp : req.preference with
    | none =>
      refine ⟨⟨(⟨some req.session_id, strStrip req.name,
          strStrip (strLower req.email), today, false⟩ : EarlyAccessSignup),
          ?_, rfl⟩, ?_⟩
      · simp [hp, clearBounce, createSignup, upsertSurvey]
      · intro p hcontra
        simp [hp] at hcontra
    | some p =>
      refine ⟨⟨(⟨some req.session_id, strStrip req.name,
          strStrip (strLower req.email), today, false⟩ : EarlyAccessSignup),
          ?_, rfl⟩, ?_⟩
      · simp [hp, clearBounce, createSignup, upsertSurvey]
      · intro q hq
        cases hq
        exact upsertSurvey_pref (getOrCreateSession db req.session_id req.utm_source today)
          req.session_id p req.time_to_select req.changes_made today
  · by_cases hk : k ≤ ((match req.preference with
        | some p => [upsertSurvey req.session_id p req.time_to_select req.changes_made today]
        | none => []) ++ [createSignup req.session_id (strStrip req.name)
            (strStrip (strLower req.email)) today,
          clearBounce req.session_id]).length
    · right
      simp only [if_pos hk]
      exact ⟨getOrCreateSession_signups_eq db req.session_id req.utm_source today,
        getOrCreateSession_surveys_eq db req.session_id req.utm_source today⟩
    · left
      simp only [if_neg hk]
      cases hp : req.preference with
      | none =>
        refine ⟨⟨(⟨some req.session_id, strStrip req.name,
            strStrip (strLower req.email), today, false⟩ : EarlyAccessSignup),
            ?_, rfl⟩, ?_⟩
        · simp [hp, clearBounce, createSignup, upsertSurvey]
        · intro p hcontra
          simp [hp] at hcontra
      | some p =>
        refine ⟨⟨(⟨some req.session_id, strStrip req.name,
            strStrip (strLower req.email), today, false⟩ : EarlyAccessSignup),
            ?_, rfl⟩, ?_⟩
        · simp [hp, clearBounce, createSignup, upsertSurvey]
        · intro q hq
          cases hq
          exact upsertSurvey_pref (getOrCreateSession db req.session_id req.utm_source today)
            req.session_id p req.time_to_select req.changes_made today

/-- C4 witness: a fresh submission with a preference, hit by a fault after
the first write of the atomic block. -/
theorem submit_atomic_consistency_witness :
    (("s2" : String) ≠ "")
    ∧ strStrip (strLower ("New@Example.com")) ≠ ""
    ∧ strStrip ("Bea") ≠ ""
    ∧ (∀ g ∈ DB.empty.signups, g.session_id ≠ some (reqFresh.session_id))
    ∧ (∀ g ∈ DB.empty.signups, strLower g.email ≠ strStrip (strLower (reqFresh.email)))
    ∧ (((∃ g ∈ (submit_early_access DB.empty reqFresh (some 1) 5).2.signups,
          g.email = strStrip (strLower (reqFresh.email)))
        ∧ (∀ p, reqFresh.preference = some p →
            surveyPrefFor (submit_early_access DB.empty reqFresh (some 1) 5).2
              reqFresh.session_id = some p))
      ∨ ((submit_early_access DB.empty reqFresh (some 1) 5).2.signups
            = DB.empty.signups
        ∧ (submit_early_access DB.empty reqFresh (some 1) 5).2.surveys
            = DB.empty.surveys)) :=
  ⟨by decide, by decide, by decide, by decide, by decide,
    submit_atomic_consistency DB.empty reqFresh (some 1) 5
      (by decide) (by decide) (by decide) (by decide) (by decide)⟩

theorem calculate_rates_date (db : DB) (st : DailyStats) :
    (calculate_rates db st).date = st.date := by
  unfold calculate_rates
  split_ifs <;> rfl

theorem any_date_map (l : List DailyStats) (f : DailyStats → DailyStats)
    (hf : ∀ r, (f r).date = r.date) (d : Nat) :
    (l.map f).any (fun r => r.date == d) = l.any (fun r => r.date == d) := by
  induction l with
  | nil => rfl
  | cons r l ih => simp [List.any_cons, hf, ih]

theorem statsRowExists_mapStatsRow (db : DB) (d : Nat) (db0 : DB) (d' : Nat) :
    ((db.mapStatsRow d (fun r => calculate_rates db0 r)).statsRowExists d')
      = db.statsRowExists d' := by
  unfold DB.mapStatsRow DB.statsRowExists
  apply any_date_map
  intro r
  by_cases h : r.date == d
  · simp [h, calculate_rates_date]
  · simp [h]

theorem calculate_daily_metrics_date (db : DB) (d : Nat) :
    (calculate_daily_metrics db d).date = d := rfl

theorem statsRowExists_upsert (db : DB) (d : Nat) (m : DailyStats) (d' : Nat)
    (hmd : m.date = d) :
    ((db.upsertStats d m).statsRowExists d')
      = (db.statsRowExists d' || d == d') := by
  have hexu : db.statsRowExists d
      = db.daily_stats.any (fun r => r.date == d) := rfl
  unfold DB.upsertStats
  by_cases hex : db.statsRowExists d
  · rw [if_pos hex]
    have hmap := any_date_map db.daily_stats
      (fun r => if r.date == d then mergeDefaults r m else r)
      (fun r => by by_cases h : r.date == d <;> simp [h, mergeDefaults]) d'
    show (db.daily_stats.map
        (fun r => if r.date == d then mergeDefaults r m else r)).any
          (fun r => r.date == d')
      = (db.daily_stats.any (fun r => r.date == d') || d == d')
    rw [hmap]
    by_cases hdd : d == d'
    · have hd' : d = d' := by simpa using hdd
      subst hd'
      rw [hexu] at hex
      simp [hex]
    · simp [hdd]
  · rw [if_neg hex]
    show (db.daily_stats ++ [m]).any (fun r => r.date == d')
      = (db.daily_stats.any (fun r => r.date == d') || d == d')
    simp [List.any_append, hmd]

theorem compute_rowExists (faults : Nat → Bool) (db : DB) (d : Nat) (force : Bool)
    (d' : Nat) :
    ((compute_stats_for_date faults db d force).2).statsRowExists d'
      = (db.statsRowExists d'
          || ((compute_stats_for_date faults db d force).1 && d == d')) := by
  unfold compute_stats_for_date
  split_ifs with h1 h2
  · simp
  · simp
  · show ((db.upsertStats d (calculate_daily_metrics db d)).mapStatsRow d
        (fun r => calculate_rates (db.upsertStats d (calculate_daily_metrics db d)) r)).statsRowExists d'
      = (db.statsRowExists d' || (true && d == d'))
    rw [statsRowExists_mapStatsRow,
      statsRowExists_upsert db d (calculate_daily_metrics db d) d'
        (calculate_daily_metrics_date db d)]
    simp

theorem compute_fst (faults : Nat → Bool) (db : DB) (d : Nat) (force : Bool) :
    (compute_stats_for_date faults db d force).1
      = backfillSuccess db force faults d := by
  unfold compute_stats_for_date backfillSuccess
  cases hforce : force <;> cases hex : db.statsRowExists d <;>
    cases hfd : faults d <;> simp [hforce, hex, hfd]

theorem compute_fail_snd (faults : Nat → Bool) (db : DB) (d : Nat) (force : Bool)
    (h : (compute_stats_for_date faults db d force).1 = false) :
    (compute_stats_for_date faults db d force).2 = db := by
  unfold compute_stats_for_date at h ⊢
  cases hforce : force <;> cases hex : db.statsRowExists d <;>
    cases hfd : faults d <;> simp_all

theorem backfillLoop_cons (faults : Nat → Bool) (force : Bool) (d : Nat)
    (ds : List Nat) (db : DB) :
    backfillLoop faults force (d :: ds) db
      = (if (compute_stats_for_date faults db d force).1
         then ((backfillLoop faults force ds (compute_stats_for_date faults db d force).2).1 + 1,
               (backfillLoop faults force ds (compute_stats_for_date faults db d force).2).2.1,
               (backfillLoop faults force ds (compute_stats_for_date faults db d force).2).2.2)
         else ((backfillLoop faults force ds (compute_stats_for_date faults db d force).2).1,
               (backfillLoop faults force ds (compute_stats_for_date faults db d force).2).2.1 + 1,
               (backfillLoop faults force ds (compute_stats_for_date faults db d force).2).2.2)) := rfl

theorem backfillLoop_preserves (faults : Nat → Bool) (force : Bool) :
    ∀ (dates : List Nat) (db : DB) (d' : Nat),
    db.statsRowExists d' = true →
    ((backfillLoop faults force dates db).2.2).statsRowExists d' = true := by
  intro dates
  induction dates with
  | nil => intro db d' h; exact h
  | cons d ds ih =>
    intro db d' h
    rw [backfillLoop_cons]
    have hpres : ((compute_stats_for_date faults db d force).2).statsRowExists d' = true := by
      rw [compute_rowExists]
      simp [h]
    have := ih (compute_stats_for_date faults db d force).2 d' hpres
    by_cases hr : (compute_stats_for_date faults db d force).1 <;> simp [hr, this]

theorem backfillLoop_spec (faults : Nat → Bool) (force : Bool) :
    ∀ (dates : List Nat) (db : DB), dates.Nodup →
    (backfillLoop faults force dates db).1
        = (dates.filter (fun d => backfillSuccess db force faults d)).length
    ∧ (backfillLoop faults force dates db).2.1
        = (dates.filter (fun d => !(backfillSuccess db force faults d))).length
    ∧ ∀ d ∈ dates, backfillSuccess db force faults d = true →
        ((backfillLoop faults force dates db).2.2).statsRowExists d = true := by
  intro dates
  induction dates with
  | nil => intro db _; exact ⟨rfl, rfl, by simp⟩
  | cons d ds ih =>
    intro db hnd
    have hd : d ∉ ds := (List.nodup_cons.mp hnd).1
    have hds : ds.Nodup := (List.nodup_cons.mp hnd).2
    have hstable : ∀ d' ∈ ds, backfillSuccess (compute_stats_for_date faults db d force).2
        force faults d' = backfillSuccess db force faults d' := by
      intro d' hd'
      have hne : (d == d') = false := by
        simp only [beq_eq_false_iff_ne, ne_eq]
        intro hcontra
        exact hd (hcontra ▸ hd')
      unfold backfillSuccess
      rw [compute_rowExists, hne]
      simp
    obtain ⟨ih1, ih2, ih3⟩ := ih (compute_stats_for_date faults db d force).2 hds
    have hfiltp : ds.filter (fun x => backfillSuccess
          (compute_stats_for_date faults db d force).2 force faults x)
        = ds.filter (fun x => backfillSuccess db force faults x) :=
      List.filter_congr hstable
    have hfiltn : ds.filter (fun x => !(backfillSuccess
          (compute_stats_for_date faults db d force).2 force faults x))
        = ds.filter (fun x => !(backfillSuccess db force faults x)) :=
      List.filter_congr (fun a ha => by rw [hstable a ha])
    by_cases hsucc : backfillSuccess db force faults d
    · have hr1 : (compute_stats_for_date faults db d force).1 = true := by
        rw [compute_fst]; exact hsucc
      refine ⟨?_, ?_, ?_⟩
      · rw [backfillLoop_cons, if_pos hr1]
        simp only [ih1, hfiltp, List.filter_cons, hsucc]
        simp
      · rw [backfillLoop_cons, if_pos hr1]
        simp only [ih2, hfiltn, List.filter_cons, hsucc]
        simp
      · intro x hx hsx
        rw [backfillLoop_cons, if_pos hr1]
        rcases List.mem_cons.mp hx with hx | hx
        · subst hx
          have hrow : ((compute_stats_for_date faults db x force).2).statsRowExists x = true := by
            rw [compute_rowExists, hr1]
            simp
          simpa using backfillLoop_preserves faults force ds _ x hrow
        · have := ih3 x hx (by rw [hstable x hx]; exact hsx)
          simpa using this
    · have hr1 : (compute_stats_for_date faults db d force).1 = false := by
        rw [compute_fst]
        simpa using hsucc
      have hdb : (compute_stats_for_date faults db d force).2 = db :=
        compute_fail_snd faults db d force hr1
      rw [hdb] at ih1 ih2 ih3
      refine ⟨?_, ?_, ?_⟩
      · rw [backfillLoop_cons, if_neg (by simp [hr1]), hdb]
        simp [List.filter_cons, hsucc, ih1]
      · rw [backfillLoop_cons, if_neg (by simp [hr1]), hdb]
        simp [List.filter_cons, hsucc, ih2]
      · intro x hx hsx
        rcases List.mem_cons.mp hx with hx | hx
        · subst hx
          exact absurd hsx hsucc
        · rw [backfillLoop_cons, if_neg (by simp [hr1]), hdb]
          have := ih3 x hx hsx
          simpa using this

theorem dateRange_nodup (s e : Nat) : (dateRange s e).Nodup := by
  unfold dateRange
  exact (List.nodup_range _).map (fun a b h => by omega)

/-- C6: a backfill over the dates from the earliest session's date through
yesterday returns the reported pair `(computed, skipped)` where `computed`
counts exactly the non-faulting, not-already-aggregated dates and `skipped`
the rest; `computed + skipped` covers every day of the range, and every
non-faulting date has its aggregate row in the final state even when other
dates faulted — one fault never aborts the remaining days. -/
theorem backfill_partial_failure (db : DB) (faults : Nat → Bool) (force : Bool)
    (today : Nat) (h : db.sessions ≠ []) :
    ∃ c s db', backfill_all_stats faults force db today = (some (c, s), db')
      ∧ c = ((dateRange (firstSessionDate db) (today - 1)).filter
          (fun d => backfillSuccess db force faults d)).length
      ∧ s = ((dateRange (firstSessionDate db) (today - 1)).filter
          (fun d => !(backfillSuccess db force faults d))).length
      ∧ c + s = (dateRange (firstSessionDate db) (today - 1)).length
      ∧ ∀ d ∈ dateRange (firstSessionDate db) (today - 1),
          backfillSuccess db force faults d = true → db'.statsRowExists d = true := by
  obtain ⟨x, sess, hsess⟩ : ∃ x sess, db.sessions = x :: sess := by
    cases hs : db.sessions with
    | nil => exact absurd hs h
    | cons x sess => exact ⟨x, sess, rfl⟩
  have hmin : (db.sessions.map (fun x => x.first_seen_date)).min?
      = some (firstSessionDate db) := by
    rw [hsess]
    unfold firstSessionDate
    rw [hsess]
    simp [List.min?_cons]
  unfold backfill_all_stats
  rw [hmin]
  obtain ⟨h1, h2, h3⟩ := backfillLoop_spec faults force
    (dateRange (firstSessionDate db) (today - 1)) db
    (dateRange_nodup (firstSessionDate db) (today - 1))
  refine ⟨_, _, _, rfl, h1, h2, ?_, h3⟩
  rw [h1, h2]
  have hpart : ∀ L : List Nat,
      (L.filter (fun d => backfillSuccess db force faults d)).length
        + (L.filter (fun d => !(backfillSuccess db force faults d))).length
      = L.length := by
    intro L
    induction L with
    | nil => rfl
    | cons a L ih =>
      by_cases hp : backfillSuccess db force faults a
      · simp only [List.filter_cons, hp]
        simp
        omega
      · simp only [List.filter_cons, hp]
        simp
        omega
  exact hpart _

/-- C6 witness: a seven-day backfill (days 0 through 6) where exactly day 3
faults. -/
theorem backfill_partial_failure_witness :
    dbBackfill.sessions ≠ []
    ∧ (∃ c s db', backfill_all_stats faultDay3 false dbBackfill 7 = (some (c, s), db')
      ∧ c = ((dateRange (firstSessionDate dbBackfill) (7 - 1)).filter
          (fun d => backfillSuccess dbBackfill false faultDay3 d)).length
      ∧ s = ((dateRange (firstSessionDate dbBackfill) (7 - 1)).filter
          (fun d => !(backfillSuccess dbBackfill false faultDay3 d))).length
      ∧ c + s = (dateRange (firstSessionDate dbBackfill) (7 - 1)).length
      ∧ ∀ d ∈ dateRange (firstSessionDate dbBackfill) (7 - 1),
          backfillSuccess dbBackfill false faultDay3 d = true →
            db'.statsRowExists d = true) :=
  ⟨by decide, backfill_partial_failure dbBackfill faultDay3 false 7 (by decide)⟩

theorem mem_dateRange {a s e : Nat} : a ∈ dateRange s e ↔ s ≤ a ∧ a ≤ e := by
  unfold dateRange
  simp only [List.mem_map, List.mem_range]
  constructor
  · rintro ⟨i, hi, rfl⟩
    omega
  · rintro ⟨h1, h2⟩
    exact ⟨a - s, by omega, by omega⟩

theorem countP_or_disj (l : List UserSession) (p q : UserSession → Bool)
    (hdisj : ∀ x, ¬(p x = true ∧ q x = true)) :
    l.countP (fun x => p x || q x) = l.countP p + l.countP q := by
  induction l with
  | nil => rfl
  | cons x xs ih =>
    simp only [List.countP_cons, ih]
    by_cases hp : p x
    · have hq : q x = false := by
        cases hq : q x
        · rfl
        · exact absurd ⟨hp, hq⟩ (hdisj x)
      simp [hp, hq]
      omega
    · by_cases hq : q x <;> simp [hp, hq] <;> omega

theorem countP_mem_cons (l : List UserSession) (d : Nat) (L : List Nat)
    (hd : d ∉ L) :
    l.countP (fun x => x.first_seen_date == d)
        + l.countP (fun x => decide (x.first_seen_date ∈ L))
      = l.countP (fun x => decide (x.first_seen_date ∈ d :: L)) := by
  have hpred : ∀ x : UserSession, (decide (x.first_seen_date ∈ d :: L))
      = ((x.first_seen_date == d) || decide (x.first_seen_date ∈ L)) := by
    intro x
    by_cases h1 : x.first_seen_date = d <;>
      by_cases h2 : x.first_seen_date ∈ L <;> simp [h1, h2]
  have hsplit : l.countP (fun x => decide (x.first_seen_date ∈ d :: L))
      = l.countP (fun x => (x.first_seen_date == d)
          || decide (x.first_seen_date ∈ L)) :=
    List.countP_congr (fun x _ => by rw [hpred x])
  rw [hsplit, countP_or_disj]
  intro x hx
  have h1 : x.first_seen_date = d := by simpa using hx.1
  have h2 : x.first_seen_date ∈ L := by simpa using hx.2
  exact hd (h1 ▸ h2)

theorem sum_countP_dates (l : List UserSession) :
    ∀ L : List Nat, L.Nodup →
    (L.map (fun d => l.countP (fun x => x.first_seen_date == d))).sum
      = l.countP (fun x => decide (x.first_seen_date ∈ L)) := by
  intro L
  induction L with
  | nil => simp
  | cons d L ih =>
    intro hnd
    have hd : d ∉ L := (List.nodup_cons.mp hnd).1
    have hL : L.Nodup := (List.nodup_cons.mp hnd).2
    simp only [List.map_cons, List.sum_cons, ih hL]
    exact countP_mem_cons l d L hd

theorem get_daily_trends_sessions (db : DB) (s e : Nat)
    (hcons : ∀ d ∈ dateRange s e, ∀ r,
      db.daily_stats.find? (fun r => r.date == d) = some r →
        r.unique_visitors = db.sessionCountOn d) :
    (get_daily_trends db s e).map (fun t => t.sessions)
      = (dateRange s e).map (fun d => db.sessionCountOn d) := by
  unfold get_daily_trends
  rw [List.map_map]
  apply List.map_congr_left
  intro d hd
  cases hfind : db.daily_stats.find? (fun r => r.date == d) with
  | some r =>
    simp only [Function.comp_apply, hfind]
    exact hcons d hd r hfind
  | none =>
    simp only [Function.comp_apply, hfind]

/-- C7: over a range in which every date's trend bucket is served by a
`DailyStats` row whose `unique_visitors` equals what the aggregation job
computes for that date (the invariant the job maintains), the sum of the
daily-trend `sessions` values equals `get_conversion_funnel`'s
`total_sessions` — the precomputed path and the raw-fact fallback agree on
the total session count. -/
theorem trends_funnel_round_trip (db : DB) (s e : Nat)
    (hcons : ∀ d ∈ dateRange s e,
      ((db.daily_stats.find? (fun r => r.date == d)).all
        (fun r => r.unique_visitors == db.sessionCountOn d)) = true)
    (hall : ∀ d ∈ dateRange s e,
      ((db.daily_stats.find? (fun r => r.date == d)).isSome) = true) :
    ((get_daily_trends db s e).map (fun t => t.sessions)).sum
      = (get_conversion_funnel db s e).total_sessions := by
  have hcons' : ∀ d ∈ dateRange s e, ∀ r,
      db.daily_stats.find? (fun r => r.date == d) = some r →
        r.unique_visitors = db.sessionCountOn d := by
    intro d hd r hr
    have := hcons d hd
    rw [hr] at this
    simpa using this
  rw [get_daily_trends_sessions db s e hcons']
  unfold DB.sessionCountOn
  rw [sum_countP_dates db.sessions (dateRange s e) (dateRange_nodup s e)]
  show _ = (db.sessionsInRange s e).length
  unfold DB.sessionsInRange
  rw [← List.countP_eq_length_filter]
  apply List.countP_congr
  intro x _
  simp [mem_dateRange]

/-- C7 witness: one session on day 0 with a consistent precomputed row over
the one-day range. -/
theorem trends_funnel_round_trip_witness :
    (∀ d ∈ dateRange 0 0,
      ((dbTrends.daily_stats.find? (fun r => r.date == d)).all
        (fun r => r.unique_visitors == dbTrends.sessionCountOn d)) = true)
    ∧ (∀ d ∈ dateRange 0 0,
      ((dbTrends.daily_stats.find? (fun r => r.date == d)).isSome) = true)
    ∧ ((get_daily_trends dbTrends 0 0).map (fun t => t.sessions)).sum
        = (get_conversion_funnel dbTrends 0 0).total_sessions :=
  ⟨by decide, by decide,
    trends_funnel_round_trip dbTrends 0 0 (by decide) (by decide)⟩

theorem foldl_max_spec (xs : List SourceEntry) : ∀ acc : SourceEntry,
    ((xs.foldl (fun best y =>
        if best.conversion_rate < y.conversion_rate then y else best) acc = acc)
      ∨ (xs.foldl (fun best y =>
        if best.conversion_rate < y.conversion_rate then y else best) acc ∈ xs))
    ∧ acc.conversion_rate ≤ (xs.foldl (fun best y =>
        if best.conversion_rate < y.conversion_rate then y else best) acc).conversion_rate
    ∧ ∀ x ∈ xs, x.conversion_rate ≤ (xs.foldl (fun best y =>
        if best.conversion_rate < y.conversion_rate then y else best) acc).conversion_rate := by
  induction xs with
  | nil => exact fun acc => ⟨Or.inl rfl, le_refl _, by simp⟩
  | cons y ys ih =>
    intro acc
    obtain ⟨hmem, hacc, hall⟩ := ih
      (if acc.conversion_rate < y.conversion_rate then y else acc)
    have hstep_le : acc.conversion_rate ≤
        (if acc.conversion_rate < y.conversion_rate then y else acc).conversion_rate := by
      by_cases hlt : acc.conversion_rate < y.conversion_rate
      · simpa [hlt] using le_of_lt hlt
      · simp [hlt]
    have hy_le : y.conversion_rate ≤
        (if acc.conversion_rate < y.conversion_rate then y else acc).conversion_rate := by
      by_cases hlt : acc.conversion_rate < y.conversion_rate
      · simp [hlt]
      · simpa [hlt] using le_of_not_lt hlt
    refine ⟨?_, le_trans hstep_le hacc, ?_⟩
    · rcases hmem with hmem | hmem
      · rw [List.foldl_cons, hmem]
        by_cases hlt : acc.conversion_rate < y.conversion_rate
        · simp [hlt]
        · simp [hlt]
      · exact Or.inr (List.mem_cons_of_mem y hmem)
    · intro x hx
      rcases List.mem_cons.mp hx with hx | hx
      · subst hx
        exact le_trans hy_le hacc
      · exact hall x hx

theorem maxByRate_spec (l : List SourceEntry) (h : l ≠ []) :
    ∃ t, maxByRate l = some t ∧ t ∈ l
      ∧ ∀ x ∈ l, x.conversion_rate ≤ t.conversion_rate := by
  cases l with
  | nil => exact absurd rfl h
  | cons a xs =>
    obtain ⟨hmem, hacc, hall⟩ := foldl_max_spec xs a
    refine ⟨_, rfl, ?_, ?_⟩
    · rcases hmem with hmem | hmem
      · rw [hmem]; exact List.mem_cons_self a xs
      · exact List.mem_cons_of_mem a hmem
    · intro x hx
      rcases List.mem_cons.mp hx with hx | hx
      · subst hx; exact hacc
      · exact hall x hx

theorem sourceKeys_group_pos (db : DB) (s e : Nat) (u : String)
    (hu : u ∈ sourceKeys db s e) : 0 < (sourceGroup db s e u).length := by
  unfold sourceKeys at hu
  obtain ⟨x, hx, hxe⟩ := List.mem_map.mp (List.mem_dedup.mp hu)
  apply List.length_pos_of_mem (a := x)
  unfold sourceGroup
  rw [List.mem_filter]
  exact ⟨hx, by simp [hxe]⟩

theorem attribution_sources_eq (db : DB) (s e : Nat) :
    (get_traffic_attribution db s e).sources
      = ((sourceKeys db s e).map (mkSourceEntry db s e)).mergeSort
          (fun a b => b.sessions ≤ a.sessions) := rfl

theorem attribution_sources_mem (db : DB) (s e : Nat) (ent : SourceEntry) :
    ent ∈ (get_traffic_attribution db s e).sources
      ↔ ent ∈ (sourceKeys db s e).map (mkSourceEntry db s e) := by
  rw [attribution_sources_eq]
  exact (List.mergeSort_perm _ _).mem_iff

theorem mkSourceEntry_fields (db : DB) (s e : Nat) (u : String)
    (hu : u ∈ sourceKeys db s e) :
    (mkSourceEntry db s e u).source = (if u = "" then ("Direct") else u)
    ∧ (mkSourceEntry db s e u).sessions = (sourceGroup db s e u).length
    ∧ (mkSourceEntry db s e u).conversions
        = (sourceGroup db s e u).countP (fun x => db.hasSignup x.session_id)
    ∧ (mkSourceEntry db s e u).conversion_rate
        = round2 ((((mkSourceEntry db s e u).conversions : ℚ)
            / (mkSourceEntry db s e u).sessions) * 100)
    ∧ (mkSourceEntry db s e u).avg_time_minutes
        = round1 (((((sourceGroup db s e u).map (fun x => (x.time_on_site : ℚ))).sum)
            / (sourceGroup db s e u).length) / 60)
    ∧ (mkSourceEntry db s e u).bounce_rate
        = round1 ((((sourceGroup db s e u).countP (fun x => x.is_bounce) : ℚ)
            / (sourceGroup db s e u).length) * 100) := by
  have htot : 0 < (sourceGroup db s e u).length := sourceKeys_group_pos db s e u hu
  have hne : (sourceGroup db s e u).length ≠ 0 := Nat.pos_iff_ne_zero.mp htot
  unfold mkSourceEntry
  refine ⟨rfl, rfl, rfl, ?_, ?_, ?_⟩
  · simp [htot]
  · simp [hne]
  · simp [htot]

/-- C8: every reported attribution entry is the entry of one grouped
`utm_source` value (the empty source labelled "Direct"), carrying that
group's session count, conversion count, conversion rate
`conversions / sessions * 100` rounded to 2 decimals, mean time-on-site and
bounce rate; every grouped source is reported; and `top_converting_source`
is `none` exactly when the range has no sessions, otherwise an entry
attaining the maximum conversion rate over all reported sources. -/
theorem traffic_attribution_spec (db : DB) (s e : Nat) :
    (∀ ent ∈ (get_traffic_attribution db s e).sources, ∃ u ∈ sourceKeys db s e,
        ent = mkSourceEntry db s e u
        ∧ ent.source = (if u = "" then ("Direct") else u)
        ∧ ent.sessions = (sourceGroup db s e u).length
        ∧ ent.conversions
            = (sourceGroup db s e u).countP (fun x => db.hasSignup x.session_id)
        ∧ ent.conversion_rate
            = round2 (((ent.conversions : ℚ) / ent.sessions) * 100)
        ∧ ent.avg_time_minutes
            = round1 (((((sourceGroup db s e u).map
                (fun x => (x.time_on_site : ℚ))).sum)
                / (sourceGroup db s e u).length) / 60)
        ∧ ent.bounce_rate
            = round1 ((((sourceGroup db s e u).countP (fun x => x.is_bounce) : ℚ)
                / (sourceGroup db s e u).length) * 100))
    ∧ (∀ u ∈ sourceKeys db s e,
        mkSourceEntry db s e u ∈ (get_traffic_attribution db s e).sources)
    ∧ (db.sessionsInRange s e = [] →
        (get_traffic_attribution db s e).top_converting_source = none)
    ∧ (db.sessionsInRange s e ≠ [] →
        ∃ t, (get_traffic_attribution db s e).top_converting_source = some t
          ∧ t ∈ (get_traffic_attribution db s e).sources
          ∧ ∀ ent ∈ (get_traffic_attribution db s e).sources,
              ent.conversion_rate ≤ t.conversion_rate) := by
  refine ⟨?_, ?_, ?_, ?_⟩
  · intro ent hent
    obtain ⟨u, hu, hue⟩ := List.mem_map.mp ((attribution_sources_mem db s e ent).mp hent)
    obtain ⟨f1, f2, f3, f4, f5, f6⟩ := mkSourceEntry_fields db s e u hu
    exact ⟨u, hu, hue.symm, hue ▸ f1, hue ▸ f2, hue ▸ f3, hue ▸ f4, hue ▸ f5, hue ▸ f6⟩
  · intro u hu
    exact (attribution_sources_mem db s e _).mpr (List.mem_map_of_mem _ hu)
  · intro hempty
    have hkeys : sourceKeys db s e = [] := by
      unfold sourceKeys
      rw [hempty]
      rfl
    show maxByRate _ = none
    rw [hkeys]
    have h0 : ((([] : List String).map (mkSourceEntry db s e)).mergeSort
        (fun a b => decide (b.sessions ≤ a.sessions))) = [] :=
      (List.mergeSort_perm _ _).eq_nil
    rw [h0]
    rfl
  · intro hne
    have hkeys : sourceKeys db s e ≠ [] := by
      obtain ⟨x, sess, hsess⟩ : ∃ x sess, db.sessionsInRange s e = x :: sess := by
        cases hs : db.sessionsInRange s e with
        | nil => exact absurd hs hne
        | cons x sess => exact ⟨x, sess, rfl⟩
      unfold sourceKeys
      rw [hsess]
      intro hcontra
      have : x.utm_source ∈ ([] : List String) := by
        rw [← hcontra]
        exact List.mem_dedup.mpr (List.mem_map_of_mem _ (List.mem_cons_self x sess))
      simp at this
    have hsorted : (get_traffic_attribution db s e).sources ≠ [] := by
      rw [attribution_sources_eq]
      intro hcontra
      have hperm := List.mergeSort_perm ((sourceKeys db s e).map (mkSourceEntry db s e))
        (fun a b => decide (b.sessions ≤ a.sessions))
      rw [hcontra] at hperm
      have hmapnil := hperm.symm.eq_nil
      exact hkeys (List.map_eq_nil.mp hmapnil)
    obtain ⟨t, ht1, ht2, ht3⟩ := maxByRate_spec _ hsorted
    exact ⟨t, ht1, ht2, ht3⟩

/-- C8 witness: the attribution contract evaluated on a database with one
"google" session over a one-day range. -/
theorem traffic_attribution_spec_witness :
    (∀ ent ∈ (get_traffic_attribution dbAttr 0 0).sources, ∃ u ∈ sourceKeys dbAttr 0 0,
        ent = mkSourceEntry dbAttr 0 0 u
        ∧ ent.source = (if u = "" then ("Direct") else u)
        ∧ ent.sessions = (sourceGroup dbAttr 0 0 u).length
        ∧ ent.conversions
            = (sourceGroup dbAttr 0 0 u).countP (fun x => dbAttr.hasSignup x.session_id)
        ∧ ent.conversion_rate
            = round2 (((ent.conversions : ℚ) / ent.sessions) * 100)
        ∧ ent.avg_time_minutes
            = round1 (((((sourceGroup dbAttr 0 0 u).map
                (fun x => (x.time_on_site : ℚ))).sum)
                / (sourceGroup dbAttr 0 0 u).length) / 60)
        ∧ ent.bounce_rate
            = round1 ((((sourceGroup dbAttr 0 0 u).countP (fun x => x.is_bounce) : ℚ)
                / (sourceGroup dbAttr 0 0 u).length) * 100))
    ∧ (∀ u ∈ sourceKeys dbAttr 0 0,
        mkSourceEntry dbAttr 0 0 u ∈ (get_traffic_attribution dbAttr 0 0).sources)
    ∧ (dbAttr.sessionsInRange 0 0 = [] →
        (get_traffic_attribution dbAttr 0 0).top_converting_source = none)
    ∧ (dbAttr.sessionsInRange 0 0 ≠ [] →
        ∃ t, (get_traffic_attribution dbAttr 0 0).top_converting_source = some t
          ∧ t ∈ (get_traffic_attribution dbAttr 0 0).sources
          ∧ ∀ ent ∈ (get_traffic_attribution dbAttr 0 0).sources,
              ent.conversion_rate ≤ t.conversion_rate) :=
  traffic_attribution_spec dbAttr 0 0

end Tpsq
